import Mathlib

/-!
Verification development for the pins-app repository (src/app.py).

The file shallowly embeds the program's core logic in Lean 4:

* the coordinate-masking function `generate_random_coordinate`
  (src/app.py lines 76-94), with Python's `math` floats modelled as real
  numbers, `math.asin`'s domain error modelled by an `Option` guard, and
  the two `random.uniform` draws passed as explicit parameters;
* the regex validators (`URL_RE`/`is_valid_url`, `HEX_COLOR_RE`, and the
  inline id check `re.match(r'^[a-z0-9_-]+$', ...)`), embedded through a
  small Brzozowski-derivative regex engine, including Python's rule that
  `$` also matches just before a single trailing newline;
* the record-assembly dataflow of `main()` (field computations,
  the masking branch, and the `mandatory` completeness check).
-/

set_option maxHeartbeats 1000000

namespace PinsApp

/-! ## Real-number helpers for the Python math functions used by the code -/

/-- Embedding of Python `math.radians`: degrees to radians. -/
noncomputable def radians (x : ℝ) : ℝ := x * Real.pi / 180

/-- Embedding of Python `math.degrees`: radians to degrees. -/
noncomputable def degrees (x : ℝ) : ℝ := x * 180 / Real.pi

/-- Embedding of Python's float `%` operator for a positive right operand:
`x % y = x - y * floor (x / y)` (the result carries the divisor's sign,
which for `y > 0` is the floor convention used here). -/
noncomputable def pymod (x y : ℝ) : ℝ := x - y * ⌊x / y⌋

/-- Embedding of Python `math.atan2 y x`: the argument of the complex
number with real part `x` and imaginary part `y`; Python returns a value
in `[-π, π]` and `Complex.arg` in `(-π, π]`, which agree on the reals
(no signed zero). `atan2 0 0 = 0` in both. -/
noncomputable def atan2 (y x : ℝ) : ℝ := Complex.arg ⟨x, y⟩

/-! ## The coordinate masker, src/app.py lines 76-94

Python source:
```
def generate_random_coordinate(lat, lon, radius_m=5000):
    R = 6371000
    lat_rad = math.radians(lat)
    d = random.uniform(0, radius_m)
    theta = random.uniform(0, 2 * math.pi)
    ang = d / R
    new_lat_rad = math.asin(
        math.sin(lat_rad) * math.cos(ang) +
        math.cos(lat_rad) * math.sin(ang) * math.cos(theta)
    )
    new_lon_rad = math.radians(lon) + math.atan2(
        math.sin(theta) * math.sin(ang) * math.cos(lat_rad),
        math.cos(ang) - math.sin(lat_rad) * math.sin(new_lat_rad)
    )
    new_lat = math.degrees(new_lat_rad)
    new_lon = math.degrees(new_lon_rad)
    new_lat = max(min(new_lat, 90), -90)
    new_lon = ((new_lon + 180) % 360) - 180
    return new_lat, new_lon
```
The random draws `d` and `theta` are passed as explicit parameters
(`radius_m` itself is only the upper bound of the `d` draw, see
`drawOk`); `math.asin` raising `ValueError` outside `[-1, 1]` is
modelled by returning `none`. -/
noncomputable def generate_random_coordinate (lat lon radius_m d theta : ℝ) :
    Option (ℝ × ℝ) :=
  let _R : ℝ := 6371000
  let _unused := radius_m
  let lat_rad := radians lat
  let ang := d / _R
  let asin_arg := Real.sin lat_rad * Real.cos ang +
    Real.cos lat_rad * Real.sin ang * Real.cos theta
  if -1 ≤ asin_arg ∧ asin_arg ≤ 1 then
    let new_lat_rad := Real.arcsin asin_arg
    let new_lon_rad := radians lon + atan2
      (Real.sin theta * Real.sin ang * Real.cos lat_rad)
      (Real.cos ang - Real.sin lat_rad * Real.sin new_lat_rad)
    let new_lat := degrees new_lat_rad
    let new_lon := degrees new_lon_rad
    some (max (min new_lat 90) (-90), pymod (new_lon + 180) 360 - 180)
  else none

/-- The support of the two `random.uniform` draws made by the masker:
`d = random.uniform(0, radius_m)` and `theta = random.uniform(0, 2*pi)`
(Python's `uniform(a, b)` may return either endpoint). -/
def drawOk (radius_m d theta : ℝ) : Prop :=
  0 ≤ d ∧ d ≤ radius_m ∧ 0 ≤ theta ∧ theta ≤ 2 * Real.pi

/-- The `math.asin` argument computed by the masker always lies in
`[-1, 1]` in exact real arithmetic (Cauchy-Schwarz on the two unit
vectors `(sin φ, cos φ)` and `(cos δ, sin δ · cos θ)`). -/
theorem asin_arg_mem (φ δ θ : ℝ) :
    -1 ≤ Real.sin φ * Real.cos δ + Real.cos φ * Real.sin δ * Real.cos θ ∧
      Real.sin φ * Real.cos δ + Real.cos φ * Real.sin δ * Real.cos θ ≤ 1 := by
  have h1 := Real.sin_sq_add_cos_sq φ
  have h2 := Real.sin_sq_add_cos_sq δ
  have h3 := Real.sin_sq_add_cos_sq θ
  have key : (Real.sin φ * Real.cos δ + Real.cos φ * Real.sin δ * Real.cos θ) ^ 2 +
      (Real.sin φ * Real.sin δ * Real.cos θ - Real.cos φ * Real.cos δ) ^ 2 +
      Real.sin δ ^ 2 * Real.sin θ ^ 2 = 1 := by
    linear_combination (Real.cos δ ^ 2 + Real.sin δ ^ 2 * Real.cos θ ^ 2) * h1 +
      h2 + Real.sin δ ^ 2 * h3
  have hsq : (Real.sin φ * Real.cos δ + Real.cos φ * Real.sin δ * Real.cos θ) ^ 2 ≤ 1 := by
    nlinarith [sq_nonneg (Real.sin φ * Real.sin δ * Real.cos θ - Real.cos φ * Real.cos δ),
      sq_nonneg (Real.sin δ * Real.sin θ)]
  constructor
  · nlinarith [sq_nonneg (Real.sin φ * Real.cos δ + Real.cos φ * Real.sin δ * Real.cos θ + 1)]
  · nlinarith [sq_nonneg (Real.sin φ * Real.cos δ + Real.cos φ * Real.sin δ * Real.cos θ - 1)]

theorem pymod_eq_fract (x : ℝ) {y : ℝ} (hy : y ≠ 0) :
    pymod x y = y * Int.fract (x / y) := by
  unfold pymod Int.fract
  field_simp

theorem pymod_nonneg (x : ℝ) {y : ℝ} (hy : 0 < y) : 0 ≤ pymod x y := by
  have h := Int.fract_nonneg (x / y)
  rw [pymod_eq_fract x hy.ne']
  positivity

theorem pymod_lt (x : ℝ) {y : ℝ} (hy : 0 < y) : pymod x y < y := by
  have h := Int.fract_lt_one (x / y)
  rw [pymod_eq_fract x hy.ne']
  nlinarith

/-- The masker never fails: the `asin` guard always holds, and the
returned pair is the clamped/wrapped projection. -/
theorem generate_eq (lat lon radius_m d theta : ℝ) :
    generate_random_coordinate lat lon radius_m d theta =
      some (max (min (degrees (Real.arcsin
          (Real.sin (radians lat) * Real.cos (d / 6371000) +
            Real.cos (radians lat) * Real.sin (d / 6371000) * Real.cos theta))) 90) (-90),
        pymod (degrees (radians lon + atan2
          (Real.sin theta * Real.sin (d / 6371000) * Real.cos (radians lat))
          (Real.cos (d / 6371000) - Real.sin (radians lat) * Real.sin (Real.arcsin
            (Real.sin (radians lat) * Real.cos (d / 6371000) +
              Real.cos (radians lat) * Real.sin (d / 6371000) * Real.cos theta)))) + 180) 360
          - 180) := by
  unfold generate_random_coordinate
  rw [if_pos (asin_arg_mem (radians lat) (d / 6371000) theta)]

/-- C1: for every latitude in `[-90, 90]`, longitude in `[-180, 180]`,
radius `> 0`, and every value of the internally drawn distance and
bearing, `generate_random_coordinate` does not raise (returns `some`)
and yields a latitude in `[-90, 90]` and a longitude in `[-180, 180]`. -/
theorem C1_mask_in_range (lat lon radius_m d theta : ℝ)
    (hlat : -90 ≤ lat ∧ lat ≤ 90) (hlon : -180 ≤ lon ∧ lon ≤ 180)
    (hr : 0 < radius_m) :
    ∃ la lo, generate_random_coordinate lat lon radius_m d theta = some (la, lo) ∧
      -90 ≤ la ∧ la ≤ 90 ∧ -180 ≤ lo ∧ lo ≤ 180 := by
  refine ⟨_, _, generate_eq lat lon radius_m d theta, ?_, ?_, ?_, ?_⟩
  · exact le_max_right _ _
  · exact max_le (min_le_right _ _) (by norm_num)
  · have := pymod_nonneg (degrees (radians lon + atan2
      (Real.sin theta * Real.sin (d / 6371000) * Real.cos (radians lat))
      (Real.cos (d / 6371000) - Real.sin (radians lat) * Real.sin (Real.arcsin
        (Real.sin (radians lat) * Real.cos (d / 6371000) +
          Real.cos (radians lat) * Real.sin (d / 6371000) * Real.cos theta)))) + 180)
      (show (0:ℝ) < 360 by norm_num)
    linarith
  · have := pymod_lt (degrees (radians lon + atan2
      (Real.sin theta * Real.sin (d / 6371000) * Real.cos (radians lat))
      (Real.cos (d / 6371000) - Real.sin (radians lat) * Real.sin (Real.arcsin
        (Real.sin (radians lat) * Real.cos (d / 6371000) +
          Real.cos (radians lat) * Real.sin (d / 6371000) * Real.cos theta)))) + 180)
      (show (0:ℝ) < 360 by norm_num)
    linarith

/-- C1 witness: masking the boundary point at latitude `89.999` with
radius `5000` m (drawn distance `2500`, bearing `1`) does not raise and
returns coordinates in range; in particular the latitude is at most 90. -/
theorem C1_mask_in_range_witness :
    ∃ la lo, generate_random_coordinate 89.999 0 5000 2500 1 = some (la, lo) ∧
      -90 ≤ la ∧ la ≤ 90 ∧ -180 ≤ lo ∧ lo ≤ 180 :=
  C1_mask_in_range 89.999 0 5000 2500 1 (by norm_num) (by norm_num) (by norm_num)

/-! ## The projection formula as the spec states it (claim C3) -/

/-- Transliteration of the projection as described by the spec and claim
C3: angular distance `δ = d / 6371000`, spherical forward formulas for
`lat'` and `lon'`, conversion back to degrees, latitude clamp to
`[-90, 90]`, longitude wrap via `((lon + 180) mod 360) - 180`.  This is
the spec-side definition, to be compared with the source-side
`generate_random_coordinate`. -/
noncomputable def spec_projection (lat lon d theta : ℝ) : ℝ × ℝ :=
  let delta := d / 6371000
  let lat1 := radians lat
  let lat2 := Real.arcsin
    (Real.sin lat1 * Real.cos delta + Real.cos lat1 * Real.sin delta * Real.cos theta)
  let lon2 := radians lon + atan2
    (Real.sin theta * Real.sin delta * Real.cos lat1)
    (Real.cos delta - Real.sin lat1 * Real.sin lat2)
  (max (min (degrees lat2) 90) (-90), pymod (degrees lon2 + 180) 360 - 180)

/-- Shared refinement lemma: on every input (in or out of range) the
code's masker succeeds and computes exactly the spec's projection of the
raw inputs. -/
theorem generate_eq_spec (lat lon radius_m d theta : ℝ) :
    generate_random_coordinate lat lon radius_m d theta =
      some (spec_projection lat lon d theta) := by
  rw [generate_eq]
  rfl

/-- C3: for every fixed drawn distance `d` and bearing `theta`, the
masker is the deterministic function of `(lat, lon, d, theta)` given by
the spec's formulas (angular distance `d / 6371000`, spherical forward
projection, degree conversion, latitude clamp, longitude wrap); the
`radius_m` argument does not influence the result. -/
theorem C3_projection_matches_spec (lat lon radius_m d theta : ℝ) :
    generate_random_coordinate lat lon radius_m d theta =
      some (spec_projection lat lon d theta) :=
  generate_eq_spec lat lon radius_m d theta

/-! ## Evaluation helpers for concrete inputs -/

theorem degrees_radians (x : ℝ) : degrees (radians x) = x := by
  unfold degrees radians
  field_simp

theorem atan2_zero_of_nonneg {x : ℝ} (hx : 0 ≤ x) : atan2 0 x = 0 := by
  unfold atan2
  have h : (⟨x, 0⟩ : ℂ) = (x : ℂ) := rfl
  rw [h]
  exact Complex.arg_ofReal_of_nonneg hx

theorem pymod_180_360 : pymod 180 360 = 180 := by
  have hf : ⌊(180:ℝ) / 360⌋ = 0 := by
    rw [Int.floor_eq_zero_iff]
    constructor <;> norm_num
  unfold pymod
  rw [hf]
  norm_num

/-- C7 counterexample: at the out-of-range latitude `100` (with
`lon = 0`, drawn distance `0`, bearing `0`) the masker does not fail
fast: it computes and returns the result `(80, 0)`, the raw latitude
`100` having flowed unclamped through the projection. -/
theorem C7_out_of_range_counterexample :
    generate_random_coordinate 100 0 5000 0 0 = some (80, 0) := by
  have hπ := Real.pi_pos
  have hsin : Real.sin (radians 100) = Real.sin (radians 80) := by
    unfold radians
    rw [show (100:ℝ) * Real.pi / 180 = Real.pi - 80 * Real.pi / 180 by ring,
      Real.sin_pi_sub]
  have hb1 : -(Real.pi / 2) ≤ radians 80 := by unfold radians; nlinarith
  have hb2 : radians 80 ≤ Real.pi / 2 := by unfold radians; nlinarith
  have harcsin : Real.arcsin (Real.sin (radians 100)) = radians 80 := by
    rw [hsin, Real.arcsin_sin hb1 hb2]
  have hxnn : 0 ≤ 1 - Real.sin (radians 100) * Real.sin (radians 80) := by
    rw [hsin]
    nlinarith [Real.sin_le_one (radians 80), Real.neg_one_le_sin (radians 80)]
  rw [generate_eq]
  simp only [zero_div, Real.cos_zero, Real.sin_zero, mul_zero, zero_mul, mul_one,
    add_zero, zero_add, one_mul]
  rw [harcsin, degrees_radians]
  rw [atan2_zero_of_nonneg hxnn]
  have hr0 : radians 0 = 0 := by unfold radians; ring
  have hd0 : degrees 0 = 0 := by unfold degrees; simp
  rw [hr0, add_zero, hd0, zero_add, pymod_180_360]
  norm_num

/-- C7 (amended): the masker applies no input-range validation and
never signals an invalid argument: even when the latitude is outside
`[-90, 90]` or the longitude outside `[-180, 180]` it computes the
spec's projection of the raw, untransformed inputs; clamping and
wrapping are applied only to the output of the projection. -/
theorem C7_no_input_validation (lat lon radius_m d theta : ℝ)
    (h : 90 < |lat| ∨ 180 < |lon|) :
    generate_random_coordinate lat lon radius_m d theta =
      some (spec_projection lat lon d theta) :=
  generate_eq_spec lat lon radius_m d theta

/-- C7 witness: at the out-of-range latitude `100` the masker still
computes the projection of the raw input. -/
theorem C7_no_input_validation_witness :
    generate_random_coordinate 100 0 5000 0 0 = some (spec_projection 100 0 0 0) :=
  C7_no_input_validation 100 0 5000 0 0 (Or.inl (by rw [abs_of_pos] <;> norm_num))

/-! ## Great-circle distance (the spec's notion, claim C2) -/

/-- Cosine of the central angle between two points given in degrees
(spherical law of cosines), the spec's great-circle geometry. -/
noncomputable def gcCentralCos (lat1 lon1 lat2 lon2 : ℝ) : ℝ :=
  Real.sin (radians lat1) * Real.sin (radians lat2) +
    Real.cos (radians lat1) * Real.cos (radians lat2) *
      Real.cos (radians lon2 - radians lon1)

/-- Great-circle distance in meters between two points given in
degrees, using the code's mean Earth radius `6371000`. -/
noncomputable def gcDistDeg (lat1 lon1 lat2 lon2 : ℝ) : ℝ :=
  6371000 * Real.arccos (gcCentralCos lat1 lon1 lat2 lon2)

theorem radians_degrees (x : ℝ) : radians (degrees x) = x := by
  unfold radians degrees
  field_simp

theorem cos_radians_nonneg {lat : ℝ} (h1 : -90 ≤ lat) (h2 : lat ≤ 90) :
    0 ≤ Real.cos (radians lat) := by
  apply Real.cos_nonneg_of_mem_Icc
  refine Set.mem_Icc.mpr ⟨?_, ?_⟩
  · unfold radians
    nlinarith [mul_le_mul_of_nonneg_right h1 Real.pi_pos.le]
  · unfold radians
    nlinarith [mul_le_mul_of_nonneg_right h2 Real.pi_pos.le]

/-- The output-latitude clamp of the masker is the identity: the
projected latitude always already lies in `[-90, 90]`. -/
theorem clamp_degrees_arcsin (S : ℝ) :
    max (min (degrees (Real.arcsin S)) 90) (-90) = degrees (Real.arcsin S) := by
  have hπ := Real.pi_pos
  have hub : degrees (Real.arcsin S) ≤ 90 := by
    unfold degrees
    rw [div_le_iff hπ]
    nlinarith [Real.arcsin_le_pi_div_two S]
  have hlb : -90 ≤ degrees (Real.arcsin S) := by
    unfold degrees
    rw [le_div_iff hπ]
    nlinarith [Real.neg_pi_div_two_le_arcsin S]
  rw [min_eq_left hub, max_eq_left hlb]

/-- Key spherical identity: the forward-projected point lies at central
angle exactly `δ` from the origin point, for any origin with
`cos φ ≥ 0` (i.e. latitude in `[-90, 90]`), any angular distance and
any bearing, including the degenerate pole cases of `atan2`. -/
theorem central_identity (φ δ θ : ℝ) (hφ : 0 ≤ Real.cos φ) :
    Real.sin φ * Real.sin (Real.arcsin
        (Real.sin φ * Real.cos δ + Real.cos φ * Real.sin δ * Real.cos θ)) +
      Real.cos φ * Real.cos (Real.arcsin
        (Real.sin φ * Real.cos δ + Real.cos φ * Real.sin δ * Real.cos θ)) *
        Real.cos (atan2 (Real.sin θ * Real.sin δ * Real.cos φ)
          (Real.cos δ - Real.sin φ * Real.sin (Real.arcsin
            (Real.sin φ * Real.cos δ + Real.cos φ * Real.sin δ * Real.cos θ)))) =
      Real.cos δ := by
  obtain ⟨hS1, hS2⟩ := asin_arg_mem φ δ θ
  have hsin := Real.sin_arcsin hS1 hS2
  have hcos := Real.cos_arcsin
    (Real.sin φ * Real.cos δ + Real.cos φ * Real.sin δ * Real.cos θ)
  have h1 := Real.sin_sq_add_cos_sq φ
  have h2 := Real.sin_sq_add_cos_sq δ
  have h3 := Real.sin_sq_add_cos_sq θ
  have h1S : (0:ℝ) ≤ 1 -
      (Real.sin φ * Real.cos δ + Real.cos φ * Real.sin δ * Real.cos θ) ^ 2 := by
    nlinarith
  have key : (Real.cos δ - Real.sin φ *
        (Real.sin φ * Real.cos δ + Real.cos φ * Real.sin δ * Real.cos θ)) ^ 2 +
      (Real.sin θ * Real.sin δ * Real.cos φ) ^ 2 =
      Real.cos φ ^ 2 * (1 -
        (Real.sin φ * Real.cos δ + Real.cos φ * Real.sin δ * Real.cos θ) ^ 2) := by
    linear_combination
      ((Real.sin φ * Real.cos δ + Real.cos φ * Real.sin δ * Real.cos θ) ^ 2 -
        Real.cos δ ^ 2) * h1 + Real.cos φ ^ 2 * h2 +
        Real.cos φ ^ 2 * Real.sin δ ^ 2 * h3
  rw [hsin, hcos]
  unfold atan2
  set S := Real.sin φ * Real.cos δ + Real.cos φ * Real.sin δ * Real.cos θ with hSdef
  set c := Real.sqrt (1 - S ^ 2) with hcdef
  set x := Real.cos δ - Real.sin φ * S with hxdef
  set y := Real.sin θ * Real.sin δ * Real.cos φ with hydef
  have hcsq : c ^ 2 = 1 - S ^ 2 := Real.sq_sqrt h1S
  have hcnn : 0 ≤ c := Real.sqrt_nonneg _
  have key2 : x ^ 2 + y ^ 2 = (Real.cos φ * c) ^ 2 := by
    rw [mul_pow (Real.cos φ) c 2, hcsq]
    linarith [key]
  by_cases hxy : x = 0 ∧ y = 0
  · have hzero : (⟨x, y⟩ : ℂ) = 0 := by
      rw [hxy.1, hxy.2]
      rfl
    rw [hzero, Complex.arg_zero, Real.cos_zero, mul_one]
    have hbc2 : (Real.cos φ * c) ^ 2 = 0 := by
      rw [← key2, hxy.1, hxy.2]
      ring
    have hbc : Real.cos φ * c = 0 :=
      (pow_eq_zero_iff (by norm_num : (2:ℕ) ≠ 0)).mp hbc2
    rw [hbc]
    have h0 := hxy.1
    rw [hxdef] at h0
    linarith
  · have hznz : (⟨x, y⟩ : ℂ) ≠ 0 := by
      intro h0
      apply hxy
      have hre := congrArg Complex.re h0
      have him := congrArg Complex.im h0
      simp only [Complex.zero_re, Complex.zero_im] at hre him
      exact ⟨hre, him⟩
    rw [Complex.cos_arg hznz]
    have habs : Complex.abs ⟨x, y⟩ = Real.cos φ * c := by
      rw [Complex.abs_apply, Complex.normSq_mk]
      have hxy2 : x * x + y * y = (Real.cos φ * c) ^ 2 := by
        nlinarith [key2]
      rw [hxy2]
      exact Real.sqrt_sq (mul_nonneg hφ hcnn)
    rw [habs]
    have hre : (⟨x, y⟩ : ℂ).re = x := rfl
    rw [hre]
    have hbne : Real.cos φ * c ≠ 0 := by
      intro h0
      have h00 : x ^ 2 + y ^ 2 = 0 := by
        rw [key2, h0]
        ring
      exact hxy ⟨by nlinarith [sq_nonneg x, sq_nonneg y],
        by nlinarith [sq_nonneg x, sq_nonneg y]⟩
    have hcollapse : Real.cos φ * c * (x / (Real.cos φ * c)) = x := by
      field_simp
    rw [hcollapse, hxdef]
    ring

/-- The masked point lies at central angle exactly `d / 6371000` from
the input point, for input latitudes in `[-90, 90]`. -/
theorem masked_central_cos (lat lon radius_m d theta la lo : ℝ)
    (hlat1 : -90 ≤ lat) (hlat2 : lat ≤ 90)
    (h : generate_random_coordinate lat lon radius_m d theta = some (la, lo)) :
    gcCentralCos lat lon la lo = Real.cos (d / 6371000) := by
  rw [generate_eq_spec] at h
  have hp := Option.some.inj h
  have hla : (spec_projection lat lon d theta).1 = la := by rw [hp]
  have hlo : (spec_projection lat lon d theta).2 = lo := by rw [hp]
  rw [← hla, ← hlo]
  have h1 : (spec_projection lat lon d theta).1 =
      degrees (Real.arcsin (Real.sin (radians lat) * Real.cos (d / 6371000) +
        Real.cos (radians lat) * Real.sin (d / 6371000) * Real.cos theta)) :=
    clamp_degrees_arcsin _
  have h2 : (spec_projection lat lon d theta).2 =
      pymod (degrees (radians lon + atan2
        (Real.sin theta * Real.sin (d / 6371000) * Real.cos (radians lat))
        (Real.cos (d / 6371000) - Real.sin (radians lat) * Real.sin (Real.arcsin
          (Real.sin (radians lat) * Real.cos (d / 6371000) +
            Real.cos (radians lat) * Real.sin (d / 6371000) * Real.cos theta)))) + 180)
        360 - 180 := rfl
  rw [h1, h2]
  unfold gcCentralCos
  rw [radians_degrees]
  have hlon : radians (pymod (degrees (radians lon + atan2
      (Real.sin theta * Real.sin (d / 6371000) * Real.cos (radians lat))
      (Real.cos (d / 6371000) - Real.sin (radians lat) * Real.sin (Real.arcsin
        (Real.sin (radians lat) * Real.cos (d / 6371000) +
          Real.cos (radians lat) * Real.sin (d / 6371000) * Real.cos theta)))) + 180)
      360 - 180) - radians lon =
      atan2 (Real.sin theta * Real.sin (d / 6371000) * Real.cos (radians lat))
        (Real.cos (d / 6371000) - Real.sin (radians lat) * Real.sin (Real.arcsin
          (Real.sin (radians lat) * Real.cos (d / 6371000) +
            Real.cos (radians lat) * Real.sin (d / 6371000) * Real.cos theta))) -
        (⌊(degrees (radians lon + atan2
          (Real.sin theta * Real.sin (d / 6371000) * Real.cos (radians lat))
          (Real.cos (d / 6371000) - Real.sin (radians lat) * Real.sin (Real.arcsin
            (Real.sin (radians lat) * Real.cos (d / 6371000) +
              Real.cos (radians lat) * Real.sin (d / 6371000) * Real.cos theta)))) + 180)
          / 360⌋ : ℤ) * (2 * Real.pi) := by
    unfold pymod radians degrees
    field_simp
    ring
  rw [hlon, Real.cos_sub_int_mul_two_pi]
  exact central_identity (radians lat) (d / 6371000) theta
    (cos_radians_nonneg hlat1 hlat2)

theorem arccos_cos_le_self {x : ℝ} (hx : 0 ≤ x) :
    Real.arccos (Real.cos x) ≤ x := by
  rcases le_or_lt x Real.pi with h | h
  · exact le_of_eq (Real.arccos_cos hx h)
  · exact le_trans (Real.arccos_le_pi _) h.le

/-- C2 (amended): the masker takes no minimum-radius parameter; the
distance draw support is `[0, radius_m]` (see `drawOk`), and for every
input latitude in `[-90, 90]` and permitted drawn distance the
great-circle distance between input and output lies in `[0, radius_m]`
exactly (in real arithmetic, no tolerance needed). -/
theorem C2_distance_bounds (lat lon radius_m d theta : ℝ)
    (hlat : -90 ≤ lat ∧ lat ≤ 90) (hd : 0 ≤ d ∧ d ≤ radius_m) :
    ∃ la lo, generate_random_coordinate lat lon radius_m d theta = some (la, lo) ∧
      0 ≤ gcDistDeg lat lon la lo ∧ gcDistDeg lat lon la lo ≤ radius_m := by
  refine ⟨(spec_projection lat lon d theta).1, (spec_projection lat lon d theta).2,
    ?_, ?_, ?_⟩
  · rw [generate_eq_spec, Prod.mk.eta]
  · exact mul_nonneg (by norm_num) (Real.arccos_nonneg _)
  · have hcc := masked_central_cos lat lon radius_m d theta
      (spec_projection lat lon d theta).1 (spec_projection lat lon d theta).2
      hlat.1 hlat.2 (by rw [generate_eq_spec, Prod.mk.eta])
    unfold gcDistDeg
    rw [hcc]
    have hang : 0 ≤ d / 6371000 := div_nonneg hd.1 (by norm_num)
    have harc := arccos_cos_le_self hang
    have hstep : 6371000 * Real.arccos (Real.cos (d / 6371000)) ≤ d := by
      have : (6371000:ℝ) * (d / 6371000) = d := by
        rw [mul_comm]
        exact div_mul_cancel₀ d (by norm_num)
      nlinarith
    linarith [hd.2]

/-- C2 counterexample: the drawn distance `0` is always in the code's
draw support whatever the radius (there is no minimum-radius
parameter), and with that draw the masker returns the input point
itself, at great-circle distance `0` — so no positive lower distance
bound `r0 - ε` can hold. -/
theorem C2_min_radius_counterexample :
    drawOk 5000 0 0 ∧
      generate_random_coordinate 0 0 5000 0 0 = some (0, 0) ∧
      gcDistDeg 0 0 0 0 = 0 := by
  have hr0 : radians 0 = 0 := by unfold radians; ring
  refine ⟨⟨le_refl 0, by norm_num, le_refl 0, by positivity⟩, ?_, ?_⟩
  · rw [generate_eq]
    simp only [zero_div, Real.cos_zero, Real.sin_zero, mul_zero, zero_mul, mul_one,
      add_zero, zero_add, one_mul, sub_zero, hr0, Real.arcsin_zero]
    have hd0 : degrees 0 = 0 := by unfold degrees; simp
    rw [hd0]
    rw [atan2_zero_of_nonneg (by norm_num : (0:ℝ) ≤ 1)]
    rw [hd0, zero_add, pymod_180_360]
    norm_num
  · unfold gcDistDeg gcCentralCos
    rw [hr0]
    simp only [Real.sin_zero, Real.cos_zero, sub_self, mul_zero, zero_mul, mul_one,
      zero_add, one_mul, Real.arccos_one]

/-- C2 witness for the amended bound, at the origin with radius 5000 m
and drawn distance 0. -/
theorem C2_distance_bounds_witness :
    ∃ la lo, generate_random_coordinate 0 0 5000 0 0 = some (la, lo) ∧
      0 ≤ gcDistDeg 0 0 la lo ∧ gcDistDeg 0 0 la lo ≤ 5000 :=
  C2_distance_bounds 0 0 5000 0 0 ⟨by norm_num, by norm_num⟩ ⟨le_refl 0, by norm_num⟩

/-! ## A Brzozowski-derivative regex engine

Used to embed the three regular expressions of src/app.py
(`URL_RE`, `HEX_COLOR_RE`, and the inline id pattern) with exact
language semantics. -/

inductive Regex : Type where
  | fail : Regex
  | eps : Regex
  | pred : (Char → Bool) → Regex
  | alt : Regex → Regex → Regex
  | cat : Regex → Regex → Regex
  | star : Regex → Regex

def nullable : Regex → Bool
  | .fail => false
  | .eps => true
  | .pred _ => false
  | .alt r1 r2 => nullable r1 || nullable r2
  | .cat r1 r2 => nullable r1 && nullable r2
  | .star _ => true

def deriv : Regex → Char → Regex
  | .fail, _ => .fail
  | .eps, _ => .fail
  | .pred p, c => if p c then .eps else .fail
  | .alt r1 r2, c => .alt (deriv r1 c) (deriv r2 c)
  | .cat r1 r2, c =>
    if nullable r1 then .alt (.cat (deriv r1 c) r2) (deriv r2 c)
    else .cat (deriv r1 c) r2
  | .star r, c => .cat (deriv r c) (.star r)

/-- Anchored match of a regex against a whole character list. -/
def matchList (r : Regex) (cs : List Char) : Bool := nullable (cs.foldl deriv r)

/-- Anchored match of a regex against a whole string. -/
def matchStr (r : Regex) (s : String) : Bool := matchList r s.data

def rchar (c : Char) : Regex := .pred (fun x => x == c)

def ropt (r : Regex) : Regex := .alt .eps r

def rplus (r : Regex) : Regex := .cat r (.star r)

/-- Concatenation of the literal characters of `s` in front of `t`. -/
def rstrThen (s : String) (t : Regex) : Regex :=
  s.data.foldr (fun c u => .cat (rchar c) u) t

/-- `n` copies of a character class in front of `r` (bounded `{n}`). -/
def chainP (p : Char → Bool) : Nat → Regex → Regex
  | 0, r => r
  | n + 1, r => .cat (.pred p) (chainP p n r)

/-- At most `n` further copies of a character class (`{0,n}`). -/
def repAtMost (p : Char → Bool) : Nat → Regex
  | 0 => .eps
  | n + 1 => .alt .eps (.cat (.pred p) (repAtMost p n))

/-! ### Generic facts about the engine -/

theorem matchList_cons (r : Regex) (c : Char) (cs : List Char) :
    matchList r (c :: cs) = matchList (deriv r c) cs := rfl

theorem matchList_fail (cs : List Char) : matchList .fail cs = false := by
  induction cs with
  | nil => rfl
  | cons c cs ih => rw [matchList_cons]; exact ih

theorem matchList_eps (cs : List Char) : matchList .eps cs = cs.isEmpty := by
  cases cs with
  | nil => rfl
  | cons c cs => rw [matchList_cons]; exact matchList_fail cs

theorem matchList_alt (r1 r2 : Regex) (cs : List Char) :
    matchList (.alt r1 r2) cs = (matchList r1 cs || matchList r2 cs) := by
  induction cs generalizing r1 r2 with
  | nil => rfl
  | cons c cs ih => rw [matchList_cons]; exact ih _ _

theorem matchList_cat_fail (r : Regex) (cs : List Char) :
    matchList (.cat .fail r) cs = false := by
  induction cs with
  | nil => rfl
  | cons c cs ih => rw [matchList_cons]; exact ih

theorem matchList_cat_eps (r : Regex) (cs : List Char) :
    matchList (.cat .eps r) cs = matchList r cs := by
  induction cs generalizing r with
  | nil => exact Bool.true_and _
  | cons c cs ih =>
    rw [matchList_cons,
      show deriv (.cat .eps r) c = .alt (.cat .fail r) (deriv r c) from rfl,
      matchList_alt, matchList_cat_fail, Bool.false_or]
    rfl

theorem deriv_cat_pred (p : Char → Bool) (r : Regex) (c : Char) :
    deriv (.cat (.pred p) r) c = .cat (if p c then .eps else .fail) r := rfl

theorem matchList_cat_pred_nil (p : Char → Bool) (r : Regex) :
    matchList (.cat (.pred p) r) [] = false := rfl

theorem matchList_cat_pred_cons (p : Char → Bool) (r : Regex) (c : Char)
    (cs : List Char) :
    matchList (.cat (.pred p) r) (c :: cs) = (p c && matchList r cs) := by
  rw [matchList_cons, deriv_cat_pred]
  cases hpc : p c
  · rw [if_neg (by simp [hpc]), matchList_cat_fail, Bool.false_and]
  · rw [if_pos (by simp [hpc]), matchList_cat_eps, Bool.true_and]

theorem matchList_star_pred (p : Char → Bool) (cs : List Char) :
    matchList (.star (.pred p)) cs = cs.all p := by
  induction cs with
  | nil => rfl
  | cons c cs ih =>
    rw [matchList_cons,
      show deriv (.star (.pred p)) c =
        .cat (if p c then .eps else .fail) (.star (.pred p)) from rfl,
      List.all_cons]
    cases hpc : p c
    · rw [if_neg (by simp [hpc]), matchList_cat_fail, Bool.false_and]
    · rw [if_pos (by simp [hpc]), matchList_cat_eps, Bool.true_and, ih]

theorem matchList_plus_pred (p : Char → Bool) (cs : List Char) :
    matchList (.cat (.pred p) (.star (.pred p))) cs = (!cs.isEmpty && cs.all p) := by
  cases cs with
  | nil => rfl
  | cons c cs =>
    rw [matchList_cat_pred_cons, matchList_star_pred, List.all_cons]
    simp

theorem matchList_chainP (p : Char → Bool) (n : Nat) (r : Regex) (cs : List Char) :
    matchList (chainP p n r) cs =
      (decide (n ≤ cs.length) && (cs.take n).all p && matchList r (cs.drop n)) := by
  induction n generalizing cs with
  | zero => simp [chainP]
  | succ n ih =>
    cases cs with
    | nil =>
      rw [show chainP p (n + 1) r = .cat (.pred p) (chainP p n r) from rfl,
        matchList_cat_pred_nil]
      simp
    | cons c cs =>
      rw [show chainP p (n + 1) r = .cat (.pred p) (chainP p n r) from rfl,
        matchList_cat_pred_cons, ih, List.take_succ_cons, List.drop_succ_cons,
        List.all_cons]
      simp only [List.length_cons, Nat.add_le_add_iff_right]
      cases p c <;> cases decide (n ≤ cs.length) <;> simp

/-! ### Character classes (ASCII readings of the Python classes;
the inputs at issue in the claims are all ASCII) -/

def isAsciiLower (c : Char) : Bool := 'a' ≤ c && c ≤ 'z'

def isHostChar (c : Char) : Bool := c.isAlpha || c.isDigit || c == '-'

def isHexDigitChar (c : Char) : Bool :=
  c.isDigit || ('a' ≤ c && c ≤ 'f') || ('A' ≤ c && c ≤ 'F')

def isIdChar (c : Char) : Bool :=
  isAsciiLower c || c.isDigit || c == '_' || c == '-'

/-- Python's `\s` class (ASCII part). -/
def isPySpace (c : Char) : Bool :=
  c == ' ' || c == '\t' || c == '\n' || c == '\r' || c == '\x0b' || c == '\x0c'

/-! ### The three regexes of src/app.py -/

/-- `([A-Za-z0-9-]+\.)+[A-Za-z]{2,6}` — dotted hostname with TLD. -/
def urlHostDotted : Regex :=
  .cat (rplus (.cat (rplus (.pred isHostChar)) (rchar '.')))
    (.cat (.pred Char.isAlpha) (.cat (.pred Char.isAlpha) (repAtMost Char.isAlpha 4)))

/-- `\d{1,3}` — one IPv4 octet field. -/
def urlOctet : Regex := .cat (.pred Char.isDigit) (repAtMost Char.isDigit 2)

/-- `\d{1,3}(?:\.\d{1,3}){3}` — dotted-quad IPv4 literal. -/
def urlIPv4 : Regex :=
  .cat urlOctet (.cat (rchar '.') (.cat urlOctet
    (.cat (rchar '.') (.cat urlOctet (.cat (rchar '.') urlOctet)))))

def urlHost : Regex := .alt urlHostDotted (.alt (rstrThen "localhost" .eps) urlIPv4)

/-- `(?::\d+)?` — optional port. -/
def urlPort : Regex := ropt (.cat (rchar ':') (rplus (.pred Char.isDigit)))

/-- `(/\S*)?` — optional path of non-whitespace characters. -/
def urlPath : Regex := ropt (.cat (rchar '/') (.star (.pred (fun c => !isPySpace c))))

/-- `URL_RE` (src/app.py lines 63-70):
`^(https?://)(([A-Za-z0-9-]+\.)+[A-Za-z]{2,6}|localhost|\d{1,3}(?:\.\d{1,3}){3})(?::\d+)?(/\S*)?$`
(without the end anchor, which is handled by the matching mode). -/
def URL_core : Regex :=
  rstrThen "http" (.cat (ropt (rchar 's'))
    (rstrThen "://" (.cat urlHost (.cat urlPort urlPath))))

/-- `HEX_COLOR_RE` (src/app.py line 62): `^#(?:[0-9A-Fa-f]{3}){1,2}$`
(concatenation written right-associated, end anchor handled by the
matching mode). -/
def HEX_core : Regex :=
  .cat (rchar '#') (chainP isHexDigitChar 3 (ropt (chainP isHexDigitChar 3 .eps)))

/-- The inline id pattern `[a-z0-9_-]+` of src/app.py line 115. -/
def ID_core : Regex := .cat (.pred isIdChar) (.star (.pred isIdChar))

/-! ### Python matching semantics for patterns of the form `^core$`

`re.match` anchors at the start; a trailing `$` matches at the end of
the string or just before a newline that ends the string.  So the whole
string matches `^core$` iff `core` matches it entirely, or it ends with
`'\n'` and `core` matches everything before that newline. -/

def lastIsLF (s : String) : Bool := s.data.getLast? == some '\n'

def strDropLast (s : String) : String := String.mk s.data.dropLast

/-- `bool(re.match(pattern, s))` for a pattern `^core$`, with Python's
trailing-newline rule for `$`. -/
def pymatchDollar (r : Regex) (s : String) : Bool :=
  matchStr r s || (lastIsLF s && matchStr r (strDropLast s))

/-- Embedding of `is_valid_url` (src/app.py lines 72-73):
`bool(URL_RE.match(url))`. -/
def is_valid_url (s : String) : Bool := pymatchDollar URL_core s

/-- The shape described by claim C4 (and the spec): the whole string is
scheme, host, optional port, optional path — nothing else. -/
def url_matches_spec (s : String) : Bool := matchStr URL_core s

/-- Embedding of the id format check at src/app.py line 115:
`bool(re.match(r'^[a-z0-9_-]+$', s))`. -/
def validate_identifier (s : String) : Bool := pymatchDollar ID_core s

/-- The shape described by claim C6: one or more characters, all drawn
from lowercase letters, digits, hyphen, underscore. -/
def identifier_spec (s : String) : Bool := !s.data.isEmpty && s.data.all isIdChar

/-- General bridge between the embedded Python `^core$` matching and
full anchored matching: a string passes iff it matches the core in
full, or it is a full core match followed by a single newline. -/
theorem pymatchDollar_iff (r : Regex) (s : String) :
    pymatchDollar r s = true ↔
      (matchStr r s = true ∨
        ∃ t : String, matchStr r t = true ∧ s = t.push '\n') := by
  unfold pymatchDollar
  rw [Bool.or_eq_true, Bool.and_eq_true]
  constructor
  · rintro (h | ⟨hlf, hm⟩)
    · exact Or.inl h
    · refine Or.inr ⟨strDropLast s, hm, ?_⟩
      have hl : s.data.getLast? = some '\n' := by
        unfold lastIsLF at hlf
        exact eq_of_beq hlf
      cases s with
      | mk data =>
        show String.mk data = String.mk (data.dropLast ++ ['\n'])
        rw [List.dropLast_append_getLast? '\n' hl]
  · rintro (h | ⟨t, hm, hs⟩)
    · exact Or.inl h
    · subst hs
      refine Or.inr ⟨?_, ?_⟩
      · unfold lastIsLF
        cases t with
        | mk data =>
          show ((data ++ ['\n']).getLast? == some '\n') = true
          rw [List.getLast?_concat]
          rfl
      · cases t with
        | mk data =>
          show matchStr r (String.mk ((data ++ ['\n']).dropLast)) = true
          rw [List.dropLast_concat]
          exact hm

/-- C6 counterexample: the code's id check accepts `"abc\n"` (Python's
`$` matches before the trailing newline), although that string contains
a character outside `[a-z0-9_-]`, so the claimed iff fails. -/
theorem C6_identifier_newline_counterexample :
    validate_identifier "abc\n" = true ∧ identifier_spec "abc\n" = false := by
  constructor <;> decide

/-- C6 (amended): the id check accepts exactly the strings of one or
more characters from lowercase letters, digits, hyphen, underscore —
or such a string followed by one trailing newline (Python `$`
semantics); `"house-5_1"` is accepted and `"House 5"` rejected. -/
theorem C6_identifier_amended :
    (∀ s : String, validate_identifier s = true ↔
      (identifier_spec s = true ∨
        ∃ t : String, identifier_spec t = true ∧ s = t.push '\n')) ∧
    validate_identifier "house-5_1" = true ∧
    validate_identifier "House 5" = false := by
  have hcore : ∀ t : String, matchStr ID_core t = identifier_spec t := by
    intro t
    unfold matchStr ID_core identifier_spec
    rw [matchList_plus_pred]
  refine ⟨fun s => ?_, by decide, by decide⟩
  rw [show validate_identifier s = pymatchDollar ID_core s from rfl,
    pymatchDollar_iff]
  constructor
  · rintro (h | ⟨t, hm, hs⟩)
    · exact Or.inl (by rw [← hcore]; exact h)
    · exact Or.inr ⟨t, by rw [← hcore]; exact hm, hs⟩
  · rintro (h | ⟨t, hm, hs⟩)
    · exact Or.inl (by rw [hcore]; exact h)
    · exact Or.inr ⟨t, by rw [hcore]; exact hm, hs⟩

/-- C4 counterexample: `is_valid_url` accepts `"https://example.com\n"`
(Python's `$` matches before the trailing newline), although the whole
string is not of the described scheme-host-port-path shape. -/
theorem C4_url_trailing_newline_counterexample :
    is_valid_url "https://example.com\n" = true ∧
      url_matches_spec "https://example.com\n" = false := by
  constructor <;> decide

/-- C4 (amended): `is_valid_url` accepts exactly the strings of the
described scheme-host-port-path shape — or such a string followed by
one trailing newline (Python `$` semantics); the spec's three examples
hold. -/
theorem C4_url_validator_amended :
    (∀ s : String, is_valid_url s = true ↔
      (url_matches_spec s = true ∨
        ∃ t : String, url_matches_spec t = true ∧ s = t.push '\n')) ∧
    is_valid_url "https://example.com" = true ∧
    is_valid_url "ftp://x.com" = false ∧
    is_valid_url "not a url" = false := by
  refine ⟨fun s => pymatchDollar_iff URL_core s, ?_, ?_, ?_⟩ <;> decide

/-! ### The hex-colour validator (claim C5)

src/app.py defines `HEX_COLOR_RE` (line 62) but contains no calling
wrapper for it; the spec's external interface declares
`validate_hex_colour(text) -> bool`. -/

/-- Modelled from the spec: src/app.py defines only the compiled regex
`HEX_COLOR_RE`, with no function applying it; the spec's
`validate_hex_colour` contract ("matches `#` followed by exactly 3 or
exactly 6 hexadecimal digits") is modelled as the anchored full match
of the source regex. -/
def validate_hex_colour (s : String) : Bool := matchStr HEX_core s

/-- The shape described by claim C5: `#` followed by exactly 3 or
exactly 6 hexadecimal digits (case-insensitive). -/
def hex_colour_spec (s : String) : Bool :=
  match s.data with
  | [] => false
  | c :: rest =>
    (c == '#') && ((decide (rest.length = 3) || decide (rest.length = 6)) &&
      rest.all isHexDigitChar)

/-- Language of the digit part of `HEX_COLOR_RE`: exactly 3 or exactly
6 characters of the hex class. -/
theorem hex_tail_eq (cs : List Char) :
    matchList (chainP isHexDigitChar 3 (ropt (chainP isHexDigitChar 3 .eps))) cs =
      ((decide (cs.length = 3) || decide (cs.length = 6)) && cs.all isHexDigitChar) := by
  rw [matchList_chainP,
    show ropt (chainP isHexDigitChar 3 .eps) =
      .alt .eps (chainP isHexDigitChar 3 .eps) from rfl,
    matchList_alt, matchList_eps, matchList_chainP, matchList_eps]
  rw [Bool.eq_iff_iff]
  simp only [Bool.and_eq_true, Bool.or_eq_true, decide_eq_true_eq,
    List.isEmpty_eq_true, List.all_eq_true, List.drop_eq_nil_iff, List.drop_drop,
    List.length_drop]
  constructor
  · rintro ⟨⟨h3, htake⟩, hnil | ⟨⟨h3', htake'⟩, hnil'⟩⟩
    · refine ⟨Or.inl (by omega), fun x hx => ?_⟩
      have hcs : cs = cs.take 3 := by
        conv_lhs => rw [← List.take_append_drop 3 cs]
        rw [List.drop_eq_nil_iff.mpr hnil, List.append_nil]
      exact htake x (hcs ▸ hx)
    · refine ⟨Or.inr (by omega), fun x hx => ?_⟩
      rw [← List.take_append_drop 3 cs] at hx
      rcases List.mem_append.mp hx with hx1 | hx2
      · exact htake x hx1
      · have hdd : (cs.drop 3).drop 3 = [] :=
          List.drop_eq_nil_iff.mpr (by rw [List.length_drop]; omega)
        have hdrop : cs.drop 3 = (cs.drop 3).take 3 := by
          conv_lhs => rw [← List.take_append_drop 3 (cs.drop 3)]
          rw [hdd, List.append_nil]
        exact htake' x (hdrop ▸ hx2)
  · rintro ⟨hlen | hlen, hall⟩
    · refine ⟨⟨by omega, fun x hx => hall x (List.take_subset 3 cs hx)⟩,
        Or.inl (by omega)⟩
    · refine ⟨⟨by omega, fun x hx => hall x (List.take_subset 3 cs hx)⟩,
        Or.inr ⟨⟨by omega,
          fun x hx => hall x (List.drop_subset 3 cs (List.take_subset 3 _ hx))⟩,
          by omega⟩⟩

/-- C5: the hex-colour validator accepts a string iff it is `#`
followed by exactly 3 or exactly 6 hexadecimal digits
(case-insensitive); 4- and 8-digit (alpha-channel) forms and bare
colour names are rejected. -/
theorem C5_hex_colour_validator :
    (∀ s : String, validate_hex_colour s = hex_colour_spec s) ∧
    validate_hex_colour "#FF0000" = true ∧
    validate_hex_colour "#fff" = true ∧
    validate_hex_colour "red" = false ∧
    validate_hex_colour "#ffff" = false ∧
    validate_hex_colour "#ffff0000" = false := by
  refine ⟨fun s => ?_, by decide, by decide, by decide, by decide, by decide⟩
  unfold validate_hex_colour hex_colour_spec matchStr HEX_core
  cases hd : s.data with
  | nil => rfl
  | cons c rest =>
    rw [show rchar '#' = Regex.pred (fun x => x == '#') from rfl,
      matchList_cat_pred_cons, hex_tail_eq]

/-! ## The record assembler, src/app.py `main()`

The relevant dataflow of `main()` as a pure function of the widget
inputs.  Modelling notes:

* `entry['zones']` (lines 166-173) maps each selected code to a
  `{code, text, colour}` record; the claims depend only on the list's
  emptiness/length, so `zones` is modelled as the list of selected
  codes (the mapping is length-preserving).
* the id-format block at lines 113-119 is a Python syntax error as
  written (`else:` with a mis-indented body); in any case its
  `valid_id` result is never read by `mandatory` (line 216), which
  tests only the truthiness of `entry['id']`.
* the widget guarantees (number-input ranges, slider range 2-10, radio
  options) appear as hypotheses where a claim needs them. -/

structure AppInputs where
  idInput : String
  listingType : String
  titleInput : String
  linkInput : String
  addressInput : String
  zoneCodes : List String
  lat : ℝ
  lon : ℝ
  maskChoice : String
  radiusKm : ℕ
  imgInput : String
  dDraw : ℝ
  thetaDraw : ℝ

structure Entry where
  id : String
  type : String
  title : String
  link : String
  address : String
  zones : List String
  latitude : ℝ
  longitude : ℝ
  radiusKm : ℕ
  mask : Bool
  imageUrl : String
  colour : String

/-- Python's `str.startswith`. -/
def pystartswith (p s : String) : Bool := List.isPrefixOf p.data s.data

/-- `entry['link']` (src/app.py lines 146-155): for a Project the
entered text if it starts with `https://` else `""`; for a Person a
fixed URL. -/
def entryLink (i : AppInputs) : String :=
  if i.listingType == "Project" then
    (if pystartswith "https://" i.linkInput then i.linkInput else "")
  else "https://actionresearchprojects.framer.website/people"

/-- `entry['imageUrl']` (src/app.py lines 206-207): the entered text if
it starts with `http`, else `""`. -/
def entryImageUrl (i : AppInputs) : String :=
  if pystartswith "http" i.imgInput then i.imgInput else ""

/-- `entry['colour']` (src/app.py line 210). -/
def entryColour (i : AppInputs) : String :=
  if i.listingType == "Project" then "#ffff00" else "#add8e6"

/-- `valid_link` (src/app.py line 214). -/
def valid_link (i : AppInputs) : Bool :=
  (i.listingType == "Person") || pystartswith "https://" (entryLink i) ||
    (entryLink i == "")

/-- `valid_image` (src/app.py line 215). -/
def valid_image (i : AppInputs) : Bool :=
  (entryImageUrl i == "") || pystartswith "http" (entryImageUrl i)

/-- `mandatory` (src/app.py line 216): Python truthiness of id, title
and zones, the radio membership test, and the two prefix checks.  The
JSON is emitted iff this is true (line 221). -/
def mandatory (i : AppInputs) : Bool :=
  (!(i.idInput == "")) && (!(i.titleInput == "")) && (!i.zoneCodes.isEmpty) &&
    ((i.maskChoice == "Yes") || (i.maskChoice == "No")) &&
    valid_link i && valid_image i

/-- The assembled `entry` (src/app.py lines 104-210): `none` only if
the masker were to raise (it never does). -/
noncomputable def assemble (i : AppInputs) : Option Entry :=
  (if i.maskChoice == "Yes" then
      generate_random_coordinate i.lat i.lon (i.radiusKm * 1000) i.dDraw i.thetaDraw
    else some (i.lat, i.lon)).map (fun p =>
    { id := i.idInput
      type := i.listingType
      title := i.titleInput
      link := entryLink i
      address := i.addressInput
      zones := i.zoneCodes
      latitude := p.1
      longitude := p.2
      radiusKm := if i.maskChoice == "Yes" then i.radiusKm else 0
      mask := i.maskChoice == "Yes"
      imageUrl := entryImageUrl i
      colour := entryColour i })

theorem assemble_no (i : AppInputs) (h : (i.maskChoice == "Yes") = false) :
    assemble i = some
      { id := i.idInput, type := i.listingType, title := i.titleInput,
        link := entryLink i, address := i.addressInput, zones := i.zoneCodes,
        latitude := i.lat, longitude := i.lon, radiusKm := 0, mask := false,
        imageUrl := entryImageUrl i, colour := entryColour i } := by
  unfold assemble
  rw [h]
  rfl

theorem assemble_yes (i : AppInputs) (h : (i.maskChoice == "Yes") = true) :
    assemble i = some
      { id := i.idInput, type := i.listingType, title := i.titleInput,
        link := entryLink i, address := i.addressInput, zones := i.zoneCodes,
        latitude := (spec_projection i.lat i.lon i.dDraw i.thetaDraw).1,
        longitude := (spec_projection i.lat i.lon i.dDraw i.thetaDraw).2,
        radiusKm := i.radiusKm, mask := true,
        imageUrl := entryImageUrl i, colour := entryColour i } := by
  unfold assemble
  rw [h, generate_eq_spec]
  rfl

/-! ### Claim C8: the completeness gate (code bug) -/

/-- A concrete session: uppercase id `"ABC"` (rejected by the id
format check), four selected climate zones, all other mandatory fields
filled, no masking. -/
def c8Input : AppInputs :=
  { idInput := "ABC", listingType := "Project", titleInput := "House 5",
    linkInput := "", addressInput := "", zoneCodes := ["Af", "Am", "Aw", "BWh"],
    lat := 0, lon := 0, maskChoice := "No", radiusKm := 5, imgInput := "",
    dDraw := 0, thetaDraw := 0 }

/-- C8 (code bug evidence): with the format-invalid id `"ABC"` and
four selected zones, the completeness check still passes and the
emitted record contains the invalid id and all four zones — the code
never requires the id to pass its own format check (whose `if/else`
block at lines 114-119 is, as written, a Python syntax error) and never
bounds the zones to three, contradicting the claimed gate. -/
theorem C8_invalid_id_emitted :
    mandatory c8Input = true ∧
    validate_identifier c8Input.idInput = false ∧
    c8Input.zoneCodes.length = 4 ∧
    ∃ e : Entry, assemble c8Input = some e ∧ e.id = "ABC" ∧ e.zones.length = 4 := by
  refine ⟨by decide, by decide, by decide, ⟨_, assemble_no c8Input (by decide), rfl, rfl⟩⟩

/-! ### Claim C9: the masking branch -/

/-- C9: in the mask branch (src/app.py lines 192-199): declining
masking passes the entered coordinates through exactly with
`radiusKm = 0` and `mask = false`; choosing masking stores the slider
value (in `[2, 10]`) and `mask = true` with the projected coordinates;
in every emitted record `mask = true` iff `radiusKm > 0`. -/
theorem C9_mask_branch (i : AppInputs) :
    (i.maskChoice = "No" →
      assemble i = some
        { id := i.idInput, type := i.listingType, title := i.titleInput,
          link := entryLink i, address := i.addressInput, zones := i.zoneCodes,
          latitude := i.lat, longitude := i.lon, radiusKm := 0, mask := false,
          imageUrl := entryImageUrl i, colour := entryColour i }) ∧
    (i.maskChoice = "Yes" → 2 ≤ i.radiusKm → i.radiusKm ≤ 10 →
      assemble i = some
        { id := i.idInput, type := i.listingType, title := i.titleInput,
          link := entryLink i, address := i.addressInput, zones := i.zoneCodes,
          latitude := (spec_projection i.lat i.lon i.dDraw i.thetaDraw).1,
          longitude := (spec_projection i.lat i.lon i.dDraw i.thetaDraw).2,
          radiusKm := i.radiusKm, mask := true,
          imageUrl := entryImageUrl i, colour := entryColour i } ∧
        2 ≤ i.radiusKm ∧ i.radiusKm ≤ 10) ∧
    ((i.maskChoice = "Yes" → 2 ≤ i.radiusKm) →
      ∀ e : Entry, assemble i = some e → (e.mask = true ↔ 0 < e.radiusKm)) := by
  refine ⟨?_, ?_, ?_⟩
  · intro h
    exact assemble_no i (by simp [h])
  · intro h h2 h10
    exact ⟨assemble_yes i (by simp [h]), h2, h10⟩
  · intro hr e he
    by_cases hy : i.maskChoice = "Yes"
    · rw [assemble_yes i (by simp [hy])] at he
      have h2 := hr hy
      cases Option.some.inj he
      constructor
      · intro _
        show 0 < i.radiusKm
        omega
      · intro _
        rfl
    · rw [assemble_no i (by simp [beq_eq_false_iff_ne, hy])] at he
      cases Option.some.inj he
      constructor
      · intro hfalse
        exact absurd hfalse Bool.false_ne_true
      · intro h0
        have h00 : (0:ℕ) < 0 := h0
        omega

/-- A concrete declined-mask session. -/
def c9NoInput : AppInputs :=
  { idInput := "house5", listingType := "Project", titleInput := "House 5",
    linkInput := "", addressInput := "", zoneCodes := ["Af"],
    lat := 51.5074, lon := -0.1278, maskChoice := "No", radiusKm := 5,
    imgInput := "", dDraw := 0, thetaDraw := 0 }

/-- A concrete masked session with slider value 5. -/
def c9YesInput : AppInputs :=
  { idInput := "house5", listingType := "Project", titleInput := "House 5",
    linkInput := "", addressInput := "", zoneCodes := ["Af"],
    lat := 51.5074, lon := -0.1278, maskChoice := "Yes", radiusKm := 5,
    imgInput := "", dDraw := 2500, thetaDraw := 1 }

/-- C9 witness: the declined branch at London passes `(51.5074,
-0.1278)` through with `radiusKm = 0`, `mask = false`; the masked
branch at slider 5 stores `radiusKm = 5` and `mask = true`; the
`mask ↔ radiusKm > 0` equivalence holds for both emitted records. -/
theorem C9_mask_branch_witness :
    (assemble c9NoInput = some
      { id := c9NoInput.idInput, type := c9NoInput.listingType,
        title := c9NoInput.titleInput, link := entryLink c9NoInput,
        address := c9NoInput.addressInput, zones := c9NoInput.zoneCodes,
        latitude := c9NoInput.lat, longitude := c9NoInput.lon,
        radiusKm := 0, mask := false,
        imageUrl := entryImageUrl c9NoInput, colour := entryColour c9NoInput }) ∧
    (assemble c9YesInput = some
      { id := c9YesInput.idInput, type := c9YesInput.listingType,
        title := c9YesInput.titleInput, link := entryLink c9YesInput,
        address := c9YesInput.addressInput, zones := c9YesInput.zoneCodes,
        latitude := (spec_projection c9YesInput.lat c9YesInput.lon
          c9YesInput.dDraw c9YesInput.thetaDraw).1,
        longitude := (spec_projection c9YesInput.lat c9YesInput.lon
          c9YesInput.dDraw c9YesInput.thetaDraw).2,
        radiusKm := c9YesInput.radiusKm, mask := true,
        imageUrl := entryImageUrl c9YesInput, colour := entryColour c9YesInput } ∧
      2 ≤ c9YesInput.radiusKm ∧ c9YesInput.radiusKm ≤ 10) ∧
    (∀ e : Entry, assemble c9YesInput = some e → (e.mask = true ↔ 0 < e.radiusKm)) :=
  ⟨(C9_mask_branch c9NoInput).1 rfl,
    (C9_mask_branch c9YesInput).2.1 rfl (by decide) (by decide),
    (C9_mask_branch c9YesInput).2.2 (fun _ => by decide)⟩

/-! ### Claim C10: the assembler's own link/image checks -/

/-- A concrete Project session whose link is the URL-regex-invalid
string `"https://not a url"` and whose image URL uses plain `http`. -/
def c10Input : AppInputs :=
  { idInput := "house5", listingType := "Project", titleInput := "House 5",
    linkInput := "https://not a url", addressInput := "", zoneCodes := ["Af"],
    lat := 0, lon := 0, maskChoice := "No", radiusKm := 5,
    imgInput := "http://example.com/p.png", dDraw := 0, thetaDraw := 0 }

/-- C10: the assembler never applies the URL regex to the link or
image fields — for a Project the link field is the entered text iff it
starts with `https://` (else `""`), the image field is the entered
text iff it starts with `http`; consequently `"https://not a url"`
(rejected by `is_valid_url`) is accepted into the record and an
`http://` image URL passes the completeness check. -/
theorem C10_link_image_checks (i : AppInputs) (hp : i.listingType = "Project") :
    entryLink i = (if pystartswith "https://" i.linkInput then i.linkInput else "") ∧
    entryImageUrl i = (if pystartswith "http" i.imgInput then i.imgInput else "") ∧
    is_valid_url "https://not a url" = false ∧
    entryLink c10Input = "https://not a url" ∧
    entryImageUrl c10Input = "http://example.com/p.png" ∧
    mandatory c10Input = true := by
  refine ⟨?_, rfl, by decide, by decide, by decide, by decide⟩
  unfold entryLink
  rw [hp]
  rfl

/-- C10 witness at the concrete Project session. -/
theorem C10_link_image_checks_witness :
    entryLink c10Input =
      (if pystartswith "https://" c10Input.linkInput then c10Input.linkInput
        else "") ∧
    entryImageUrl c10Input =
      (if pystartswith "http" c10Input.imgInput then c10Input.imgInput else "") ∧
    is_valid_url "https://not a url" = false ∧
    entryLink c10Input = "https://not a url" ∧
    entryImageUrl c10Input = "http://example.com/p.png" ∧
    mandatory c10Input = true :=
  C10_link_image_checks c10Input rfl

end PinsApp
